import Mathlib

/-!
Verification of the AYON Deadline plugin `submit_publish_job.py`
(`src/client/ayon_deadline/plugins/publish/global/submit_publish_job.py`).

The Python module is shallowly embedded below:

* `get_resource_files` (source lines 26-50) is embedded on top of a model of
  the external `clique.assemble` library call (`assemble` below); clique is a
  third-party file-sequence library declared out of scope by the module, so it
  is modelled for the filename shape the module itself documents with its
  `R_FRAME_NUMBER` regex (`<head>.<digits>.<tail>`): files are grouped into
  collections by common (head, padding, tail) and the collection keeps a
  sorted duplicate-free index set, which is exactly how the plugin consumes
  the clique collection (its `indexes` sorted set and its member iteration).
* `_submit_deadline_post_job` (lines 165-312) is embedded by
  `buildSubmission` / `submitPostJob`, with the external collaborators
  (process environment, `ayon_api` last-version query, versioning-policy
  start version, anatomy template formatting, metadata path computation)
  passed in as explicit inputs.
* `process` (lines 314-497) is embedded by `process`, with the external
  `ayon_core` synthesizer helpers (`create_skeleton_instance`,
  `create_instances_for_aov`, `prepare_representations`,
  `attach_instances_to_product`) represented by oracle values, since their
  code lives outside this repository.
* `_get_publish_folder` (lines 499-575) is embedded by `resolveVersion` /
  `getPublishFolder`.

Python dictionary values read with `.get` are modelled as `Option`; Python
truthiness of the modelled value types is spelled out at each use site.
-/

namespace SubmitPublishJob

/-- Render job record (the deadline submission JSON stored in
`instance.data["deadlineSubmissionJob"]`, or the faked record built in
`process` lines 431-457).  Only the fields the plugin reads are kept:
`job["Props"]["Batch"]` (may be the Python `None` when faked from a missing
`jobBatchName`), `job["Props"]["User"]` and `job.get("_id")`. -/
structure RenderJob where
  batch : Option String
  user : String
  id : Option String
deriving DecidableEq, Repr

/-- Synthesized publish instance.  The synthesizer helpers building these live
in `ayon_core` (outside this repository); the plugin itself only reads
`instances[0]["productName"]` and `instances[0]["productType"]`
(lines 188-190), so only those two fields are modelled. -/
structure PubInstance where
  productName : String
  productType : String
deriving DecidableEq, Repr

/-- JSON-like values stored in the payload and metadata dictionaries. -/
inductive Val where
  | str : String → Val
  | int : Int → Val
  | null : Val
  | job : RenderJob → Val
  | insts : List PubInstance → Val
deriving DecidableEq, Repr

/-- Python `None`-or-string value (`x or None` style fields). -/
def valOfOptStr : Option String → Val
  | some s => Val.str s
  | none => Val.null

/-! ## Resource collector (`get_resource_files`, lines 26-50) -/

/-- Split a character list at every occurrence of `sep`, like Python
`str.split(sep)` for a one-character separator. -/
def splitChar (sep : Char) : List Char → List (List Char)
  | [] => [[]]
  | c :: rest =>
    let r := splitChar sep rest
    if c = sep then [] :: r
    else
      match r with
      | [] => [[c]]
      | g :: gs => (c :: g) :: gs

/-- Join character lists with `sep` between them (inverse of `splitChar`). -/
def joinChar (sep : Char) : List (List Char) → List Char
  | [] => []
  | [g] => g
  | g :: gs => g ++ sep :: joinChar sep gs

/-- Numeric value of a digit string. -/
def natOfDigits (cs : List Char) : Nat :=
  cs.foldl (fun n c => n * 10 + (c.toNat - 48)) 0

/-- One file-sequence collection as produced by `clique.assemble`: common
head and tail around the frame-number position, the frame padding width, and
the sorted duplicate-free frame-index set. -/
structure FileCollection where
  head : String
  padding : Nat
  tail : String
  indexes : List Nat
deriving DecidableEq, Repr

/-- Zero-pad a frame number to the collection padding width. -/
def padNum (width n : Nat) : String :=
  let s := toString n
  String.mk (List.replicate (width - s.length) '0') ++ s

/-- Render one member of a collection (`head.frame.tail`), as iterating the
clique collection does. -/
def formatItem (c : FileCollection) (i : Nat) : String :=
  c.head ++ "." ++ padNum c.padding i ++ "." ++ c.tail

/-- Parse a filename of the shape `<head>.<digits>.<tail>` (the shape the
plugin documents with its `R_FRAME_NUMBER` regex, line 147) into
(head, frame, padding, tail); `none` for files without a frame position. -/
def parseFrameName (s : String) : Option (String × Nat × Nat × String) :=
  let parts := splitChar '.' s.data
  if parts.length < 3 then none
  else
    let frame := parts.getD (parts.length - 2) []
    if !frame.isEmpty && frame.all Char.isDigit then
      some (String.mk (joinChar '.' (parts.take (parts.length - 2))),
        natOfDigits frame, frame.length,
        String.mk ((parts.getLast?).getD []))
    else none

/-- Insert a frame index into a sorted duplicate-free index list (the clique
collection index set). -/
def insertSorted (i : Nat) : List Nat → List Nat
  | [] => [i]
  | j :: rest =>
    if i < j then i :: j :: rest
    else if i = j then j :: rest
    else j :: insertSorted i rest

/-- Add one parsed file to the collection set, grouping by
(head, padding, tail). -/
def addToCollections (h : String) (pad : Nat) (t : String) (idx : Nat) :
    List FileCollection → List FileCollection
  | [] => [⟨h, pad, t, [idx]⟩]
  | c :: rest =>
    if c.head = h && c.padding = pad && c.tail = t then
      { c with indexes := insertSorted idx c.indexes } :: rest
    else c :: addToCollections h pad t idx rest

/-- Model of the external `clique.assemble` call (line 39): groups the input
file names into sequence collections and a remainder of unmatched names. -/
def assemble (resources : List String) : List FileCollection × List String :=
  resources.foldl
    (fun (acc : List FileCollection × List String) r =>
      match parseFrameName r with
      | some (h, idx, pad, t) => (addToCollections h pad t idx acc.1, acc.2)
      | none => (acc.1, acc.2 ++ [r]))
    ([], [])

/-- Embedding of `get_resource_files` (lines 26-50): assemble the resources,
assert exactly one collection was found (line 40), drop every frame listed in
`frame_range` from the collection index set (lines 44-48, set removal), and
return the remaining members in index order (line 50). -/
def get_resource_files (resources : List String)
    (frame_range : Option (List Nat)) : Except String (List String) :=
  match (assemble resources).1 with
  | [c] =>
    let idxs :=
      match frame_range with
      | some fr => fr.foldl (fun (acc : List Nat) f => acc.erase f) c.indexes
      | none => c.indexes
    Except.ok (idxs.map (formatItem c))
  | _ => Except.error "Multiple collections found"

/-! ## Version selection (`_submit_deadline_post_job` lines 179-182 and
`_get_publish_folder` lines 529-551) -/

/-- Embedding of lines 179-182: `override_version` starts as Python `None`
and is set to `instance.data.get("version")` unless that value equals 1. -/
def overrideVersion (instanceVersion : Option Int) : Option Int :=
  if instanceVersion ≠ some 1 then instanceVersion else none

/-- Python truthiness of an optional integer (`if not version`). -/
def pyTruthyInt : Option Int → Bool
  | some v => v != 0
  | none => false

/-- Embedding of `_get_publish_folder` lines 529-551: pick the version for
the publish folder.  Inputs stand for the external read-only services:
`lastVersion` is the `ayon_api.get_last_version_by_product_name` answer and
`startVersion` the `get_versioning_start` answer.  Returns the chosen version
together with whether the tracking service was queried. -/
def resolveVersion (version : Option Int) (folderEntity : Option String)
    (lastVersion : Option Int) (startVersion : Int) : Int × Bool :=
  if pyTruthyInt version then (version.getD 0, false)
  else
    match folderEntity with
    | some _ =>
      match lastVersion with
      | some lv => (lv + 1, true)
      | none => (startVersion, true)
    | none => (startVersion, false)

/-- Embedding of `_get_publish_folder` (lines 499-575): resolve the version,
then format the publish directory template with it.  The anatomy template
machinery is external; `formatDir` stands for formatting the resolved
`publish` directory template with the enriched template data at a given
version (lines 553-575). -/
def getPublishFolder (version : Option Int) (folderEntity : Option String)
    (lastVersion : Option Int) (startVersion : Int)
    (formatDir : Int → String) : String :=
  formatDir (resolveVersion version folderEntity lastVersion startVersion).1

/-! ## Dependent job submitter (`_submit_deadline_post_job`, lines 165-312) -/

/-- Plugin-level configuration fields (class attributes, lines 140-144). -/
structure Config where
  deadline_department : String := ""
  deadline_pool : String := ""
  deadline_pool_secondary : String := ""
  deadline_group : String := ""
  deadline_priority : Option Int := none
deriving DecidableEq, Repr

/-- Fields the plugin reads from `instance.context.data`. -/
structure ContextData where
  projectName : String
  folderPath : String
  task : String
  user : String
  currentFile : String
  deadlineUser : Option String
  comment : Option String
  intent : Option String
  version : Int
  audioFile : Option String
deriving DecidableEq, Repr

/-- Fields the plugin reads from `instance.data`.  Optional dictionary keys
read with `.get` are `Option`; `farm`, `expectedFilesAreAov` and `attachTo`
carry the truthiness of the corresponding values. -/
structure InstanceData where
  farm : Bool
  productName : String
  version : Option Int
  priority : Option Int
  primaryPool : Option String
  secondaryPool : Option String
  tileRendering : Option Bool
  assemblySubmissionJobs : Option (List String)
  bakingSubmissionJobs : Option (List String)
  jobBatchName : Option String
  deadlineSubmissionJob : Option RenderJob
  deadlineUrl : String
  expectedFilesAreAov : Bool
  attachTo : Bool
  publishJobState : Option String
  folderEntity : Option String
deriving DecidableEq, Repr

/-- Python `a or b` for a string class attribute `a` (empty string is falsy)
and an optional per-instance value `b` (lines 219, 237-239, 254). -/
def pyOrStr (a : String) (b : Option String) : Option String :=
  if a ≠ "" then some a else b

/-- Effective priority (line 219): plugin override when truthy, else the
per-instance value, defaulting to 50. -/
def effectivePriority (cfg : Config) (d : InstanceData) : Int :=
  match cfg.deadline_priority with
  | some p => if p ≠ 0 then p else d.priority.getD 50
  | none => d.priority.getD 50

/-- Allow-list of forwarded environment variables (lines 128-137). -/
def environ_keys : List String :=
  ["FTRACK_API_USER", "FTRACK_API_KEY", "FTRACK_SERVER", "AYON_APP_NAME",
   "AYON_USERNAME", "AYON_SG_USERNAME", "KITSU_LOGIN", "KITSU_PWD"]

/-- Python dictionary assignment `m[k] = v` on an assoc list with unique
keys: replace in place when the key exists, else append. -/
def dictSet (m : List (String × String)) (k v : String) :
    List (String × String) :=
  if m.any (fun kv => kv.1 = k) then
    m.map (fun kv => if kv.1 = k then (k, v) else kv)
  else m ++ [(k, v)]

/-- Embedding of the environment block build (lines 200-217): the fixed
pipeline identity entries, then every allow-listed variable that is set and
non-empty in the process environment (`os.getenv` truthiness). -/
def buildEnvironment (ctx : ContextData) (env : String → Option String)
    (settingsVariant bundleName : String) (inTests : Bool) :
    List (String × String) :=
  let base : List (String × String) :=
    [("AYON_PROJECT_NAME", ctx.projectName),
     ("AYON_FOLDER_PATH", ctx.folderPath),
     ("AYON_TASK_NAME", ctx.task),
     ("AYON_USERNAME", ctx.user),
     ("AYON_LOG_NO_COLORS", "1"),
     ("AYON_IN_TESTS", if inTests then "1" else "0"),
     ("AYON_PUBLISH_JOB", "1"),
     ("AYON_RENDER_JOB", "0"),
     ("AYON_REMOTE_PUBLISH", "0"),
     ("AYON_BUNDLE_NAME", bundleName),
     ("AYON_DEFAULT_SETTINGS_VARIANT", settingsVariant)]
  environ_keys.foldl
    (fun m k =>
      match env k with
      | some v => if v ≠ "" then dictSet m k v else m
      | none => m)
    base

/-- Command-line arguments for the dependent publish process
(lines 224-234). -/
def buildArgs (rootlessMetadataPath settingsVariant : String) : List String :=
  ["--headless", "publish", "\"" ++ rootlessMetadataPath ++ "\"",
   "--targets", "deadline", "--targets", "farm"] ++
  (if settingsVariant = "staging" then ["--use-staging"] else [])

/-- Indexed `JobDependencyN` entries for a list of sub-job ids
(lines 271-275 / 280-284). -/
def mkDeps (ids : List String) : List (String × Val) :=
  ids.enum.map (fun p => ("JobDependency" ++ toString p.1, Val.str p.2))

/-- Embedding of the dependency selection (lines 268-286).  The first branch
is guarded by the truthiness of `instance.data.get("tileRendering")` and then
iterates `instance.data.get("assemblySubmissionJobs")`, which raises a
`TypeError` when that key is absent (iterating Python `None`); the second by
the truthiness of `instance.data.get("bakingSubmissionJobs")`; the third by
the truthiness of `job.get("_id")`. -/
def depEntries (d : InstanceData) (job : RenderJob) :
    Except String (List (String × Val)) :=
  if d.tileRendering.getD false then
    match d.assemblySubmissionJobs with
    | none => Except.error "TypeError: NoneType object is not iterable"
    | some ids => Except.ok (mkDeps ids)
  else if d.bakingSubmissionJobs.getD [] ≠ [] then
    Except.ok (mkDeps (d.bakingSubmissionJobs.getD []))
  else
    match job.id with
    | some id =>
      if id ≠ "" then Except.ok [("JobDependency0", Val.str id)]
      else Except.ok []
    | none => Except.ok []

/-- Indexed `EnvironmentKeyValueN` entries (lines 288-296). -/
def envEntries (environment : List (String × String)) : List (String × Val) :=
  environment.enum.map
    (fun p =>
      ("EnvironmentKeyValue" ++ toString p.1, Val.str (p.2.1 ++ "=" ++ p.2.2)))

/-- Forward-slash normalisation of the output directory (line 257,
`output_dir.replace("\\", "/")`; the pattern is a single character, so the
replacement is a character map). -/
def replaceBackslashes (s : String) : String :=
  String.mk (s.data.map (fun c => if c = '\\' then '/' else c))

/-- The `JobInfo` part of the payload in insertion order (lines 240-258)
followed by the dependency entries (lines 268-286) and the environment
entries (lines 288-296), before the `SecondaryPool` pop. -/
def jobInfoPre (cfg : Config) (d : InstanceData) (ctx : ContextData)
    (job : RenderJob) (outputDir : String) (deps : List (String × Val))
    (environment : List (String × String)) : List (String × Val) :=
  [("Plugin", Val.str "Ayon"),
   ("BatchName", valOfOptStr job.batch),
   ("Name", Val.str ("Publish - " ++ d.productName)),
   ("UserName", Val.str job.user),
   ("Comment", Val.str (ctx.comment.getD "")),
   ("Department", Val.str cfg.deadline_department),
   ("ChunkSize", Val.int 1),
   ("Priority", Val.int (effectivePriority cfg d)),
   ("InitialStatus", Val.str (d.publishJobState.getD "Active")),
   ("Group", Val.str cfg.deadline_group),
   ("Pool", valOfOptStr (pyOrStr cfg.deadline_pool d.primaryPool)),
   ("SecondaryPool",
     valOfOptStr (pyOrStr cfg.deadline_pool_secondary d.secondaryPool)),
   ("OutputDirectory0", Val.str (replaceBackslashes outputDir))]
  ++ deps ++ envEntries environment

/-- The unconditional `payload["JobInfo"].pop("SecondaryPool", None)`
(line 298): the `JobInfo` keys are pairwise distinct by construction, so the
dictionary pop is removal of that key. -/
def popSecondaryPool (info : List (String × Val)) : List (String × Val) :=
  info.filter (fun kv => kv.1 ≠ "SecondaryPool")

/-- Everything `_submit_deadline_post_job` has computed by the time the HTTP
post is made: the version override passed to the folder resolver, the
resolved version, the output directory, the arguments, and the `JobInfo`
payload before and after the `SecondaryPool` pop. -/
structure Submission where
  folderVersionArg : Option Int
  resolvedVersion : Int
  outputDir : String
  args : List String
  jobInfoBeforePop : List (String × Val)
  jobInfo : List (String × Val)
deriving DecidableEq, Repr

/-- Embedding of `_submit_deadline_post_job` up to (not including) the HTTP
post (lines 165-298).  `env` is the process environment (`os.environ`;
missing required keys raise `KeyError`), `lastVersion` / `startVersion` the
external version services, `formatDir` the anatomy template formatting, and
`rootlessMetadataPath` the `create_metadata_path` result.  `instances[0]`
is read at line 188, raising `IndexError` on an empty list. -/
def buildSubmission (cfg : Config) (d : InstanceData) (ctx : ContextData)
    (env : String → Option String) (inTests : Bool)
    (lastVersion : Option Int) (startVersion : Int)
    (formatDir : Int → String) (rootlessMetadataPath : String)
    (job : RenderJob) (instances : List PubInstance) :
    Except String Submission :=
  match instances with
  | [] => Except.error "IndexError: list index out of range"
  | _ :: _ =>
    let overrideV := overrideVersion d.version
    let resolved := resolveVersion overrideV d.folderEntity lastVersion
      startVersion
    let outputDir := formatDir resolved.1
    match env "AYON_DEFAULT_SETTINGS_VARIANT" with
    | none => Except.error "KeyError: AYON_DEFAULT_SETTINGS_VARIANT"
    | some settingsVariant =>
      match env "AYON_BUNDLE_NAME" with
      | none => Except.error "KeyError: AYON_BUNDLE_NAME"
      | some bundleName =>
        let environment := buildEnvironment ctx env settingsVariant
          bundleName inTests
        let args := buildArgs rootlessMetadataPath settingsVariant
        match depEntries d job with
        | Except.error e => Except.error e
        | Except.ok deps =>
          let pre := jobInfoPre cfg d ctx job outputDir deps environment
          Except.ok
            ⟨overrideV, resolved.1, outputDir, args, pre,
              popSecondaryPool pre⟩

/-- HTTP response of the farm job submission (`requests_post`, line 305). -/
structure FarmResponse where
  ok : Bool
  text : String
  idField : String
deriving DecidableEq, Repr

/-- Embedding of the submission tail (lines 300-312): build the payload,
post it, raise `Exception(response.text)` on a non-success response
(lines 307-308), else return `response.json()["_id"]` (line 310).  The
boolean records whether the HTTP post was reached. -/
def submitPostJob (cfg : Config) (d : InstanceData) (ctx : ContextData)
    (env : String → Option String) (inTests : Bool)
    (lastVersion : Option Int) (startVersion : Int)
    (formatDir : Int → String) (rootlessMetadataPath : String)
    (resp : FarmResponse) (job : RenderJob)
    (instances : List PubInstance) : Bool × Except String String :=
  match buildSubmission cfg d ctx env inTests lastVersion startVersion
      formatDir rootlessMetadataPath job instances with
  | Except.error e => (false, Except.error e)
  | Except.ok _ =>
    if resp.ok then (true, Except.ok resp.idField)
    else (true, Except.error resp.text)

/-! ## The `process` entry point (lines 314-497) -/

/-- Model of `os.path.basename` for the paths the plugin handles: the part
after the last forward slash. -/
def basename (p : String) : String :=
  String.mk (((splitChar '/' p.data).getLast?).getD [])

/-- Base part of `os.path.splitext`: drop the extension after the last dot,
where leading dots of the name never start an extension. -/
def splitextBase (s : String) : String :=
  let cs := s.data
  let lead := (cs.takeWhile (fun c => c = '.')).length
  let rest := cs.drop lead
  if rest.contains '.' then
    let revRest := rest.reverse
    let afterRev := revRest.takeWhile (fun c => c ≠ '.')
    String.mk (cs.take lead ++ (revRest.drop (afterRev.length + 1)).reverse)
  else s

/-- Embedding of the faked render-job record (lines 431-457), built when no
prior deadline submission exists: batch from `jobBatchName` when assembly
sub-jobs exist (truthy), else from the current scene file name; user from the
context `deadlineUser` with the OS user (`getpass.getuser()`) as default; no
`_id` key. -/
def fakeRenderJob (d : InstanceData) (ctx : ContextData) (osUser : String) :
    RenderJob :=
  { batch :=
      if d.assemblySubmissionJobs.getD [] ≠ [] then d.jobBatchName
      else some (splitextBase (basename ctx.currentFile)),
    user := ctx.deadlineUser.getD osUser,
    id := none }

/-- Fields the plugin reads from the skeleton instance built by the external
`create_skeleton_instance` helper (`ayon_core`, outside this repository):
the metadata fields copied at lines 471-476 plus the product identity used
when the flat-list branch turns the skeleton itself into the single
synthesized instance (line 409). -/
structure Skeleton where
  folderPath : String
  frameStart : Int
  frameEnd : Int
  fps : Val
  source : String
  productName : String
  productType : String
deriving DecidableEq, Repr

/-- External collaborators of `process`, passed as explicit inputs: the OS
user, the process environment, the `is_in_tests` flag, the on-disk file
check, the version services, the anatomy formatting, the metadata path, the
skeleton and the results of the external AOV / attach synthesizer helpers,
and the farm HTTP response. -/
structure Oracles where
  osUser : String
  env : String → Option String
  inTests : Bool
  fileExists : String → Bool
  lastVersion : Option Int
  startVersion : Int
  formatDir : Int → String
  rootlessMetadataPath : String
  skeleton : Skeleton
  aovInstances : List PubInstance
  attachedInstances : List PubInstance
  response : FarmResponse

/-- The synthesized instance list (lines 385-415): the external
`create_instances_for_aov` result when `expectedFiles` holds a mapping, else
the skeleton itself as the single instance; re-parented by the external
`attach_instances_to_product` when an attach target is set. -/
def synthesizedInstances (o : Oracles) (d : InstanceData) :
    List PubInstance :=
  let instances0 :=
    if d.expectedFilesAreAov then o.aovInstances
    else [⟨o.skeleton.productName, o.skeleton.productType⟩]
  if d.attachTo then o.attachedInstances else instances0

/-- Embedding of the metadata `publish_job` dictionary (lines 471-491): the
always-present keys in insertion order, then `deadline_publish_job_id` only
when the returned job id is truthy (line 485), then `audio` only when the
context names an audio file that is truthy and exists on disk
(lines 489-491). -/
def buildPublishJob (skel : Skeleton) (ctx : ContextData) (job : RenderJob)
    (instances : List PubInstance) (jobId : String)
    (fileExists : String → Bool) : List (String × Val) :=
  [("folderPath", Val.str skel.folderPath),
   ("frameStart", Val.int skel.frameStart),
   ("frameEnd", Val.int skel.frameEnd),
   ("fps", skel.fps),
   ("source", Val.str skel.source),
   ("user", Val.str ctx.user),
   ("version", Val.int ctx.version),
   ("intent", valOfOptStr ctx.intent),
   ("comment", valOfOptStr ctx.comment),
   ("job", Val.job job),
   ("instances", Val.insts instances)]
  ++ (if jobId ≠ "" then [("deadline_publish_job_id", Val.str jobId)]
      else [])
  ++ (match ctx.audioFile with
      | some a =>
        if a ≠ "" && fileExists a then [("audio", Val.str a)] else []
      | none => [])

/-- Observable outcome of one `process` call: the result (`Except.error` for
a raised exception), which phases ran, the final instance data (the only
mutation is popping `deadlineSubmissionJob`, line 427), the render-job record
used for the submission, and the metadata file content when written. -/
structure ProcResult where
  outcome : Except String Unit
  builtSkeleton : Bool
  folderResolved : Bool
  posted : Bool
  metadataWritten : Bool
  finalData : InstanceData
  renderJobUsed : Option RenderJob
  publishJob : Option (List (String × Val))
deriving Repr

/-- The tail of `process` once the render-job record is settled
(lines 459-497): assert the webservice URL (line 461), submit the dependent
job, and on success write the metadata file.  `folderResolved` records that
the folder-resolution call inside the submitter was reached (it is the first
thing the submitter does once `instances[0]` exists). -/
def processAfterJob (cfg : Config) (o : Oracles) (d : InstanceData)
    (ctx : ContextData) (job : RenderJob) (instances : List PubInstance) :
    ProcResult :=
  if d.deadlineUrl = "" then
    ⟨Except.error "Requires Deadline Webservice URL", true, false, false,
      false, d, some job, none⟩
  else
    match submitPostJob cfg d ctx o.env o.inTests o.lastVersion
        o.startVersion o.formatDir o.rootlessMetadataPath o.response job
        instances with
    | (posted, Except.error e) =>
      ⟨Except.error e, true, !instances.isEmpty, posted, false, d,
        some job, none⟩
    | (_, Except.ok jobId) =>
      ⟨Except.ok (), true, true, true, true, d, some job,
        some (buildPublishJob o.skeleton ctx job instances jobId
          o.fileExists)⟩

/-- Embedding of `process` (lines 314-497): skip non-farm instances
(lines 326-328), build the skeleton and synthesize instances (external
helpers), pop `deadlineSubmissionJob` (line 427), raise the fatal assertion
when it is missing and `tileRendering` is the literal `False` (lines
428-430), fake the render-job record when it is missing otherwise (lines
431-457), then submit and write metadata. -/
def process (cfg : Config) (o : Oracles) (d : InstanceData)
    (ctx : ContextData) : ProcResult :=
  if !d.farm then
    ⟨Except.ok (), false, false, false, false, d, none, none⟩
  else
    let instances := synthesizedInstances o d
    let d1 := { d with deadlineSubmissionJob := none }
    match d.deadlineSubmissionJob with
    | some rj => processAfterJob cfg o d1 ctx rj instances
    | none =>
      if d.tileRendering = some false then
        ⟨Except.error "Cannot continue without valid Deadline submission.",
          true, false, false, false, d1, none, none⟩
      else
        processAfterJob cfg o d1 ctx (fakeRenderJob d1 ctx o.osUser)
          instances

/-! ## Helper lemmas -/

/-- Removing the frames of `fr` one by one from a duplicate-free index list
is filtering out the frames of `fr`. -/
theorem foldl_erase_eq_filter (fr : List Nat) :
    ∀ l : List Nat, l.Nodup →
      fr.foldl (fun (acc : List Nat) f => acc.erase f) l =
        l.filter (fun i => decide (i ∉ fr)) := by
  induction fr with
  | nil => intro l _; simp
  | cons f fr ih =>
    intro l hl
    rw [List.foldl_cons, ih (l.erase f) (hl.erase f),
      List.Nodup.erase_eq_filter hl f, List.filter_filter]
    apply List.filter_congr
    intro a _
    by_cases haf : a = f <;> by_cases hafr : a ∈ fr <;>
      simp [haf, hafr]

/-- Every branch of `processAfterJob` records the render-job record it was
given. -/
theorem processAfterJob_renderJobUsed (cfg : Config) (o : Oracles)
    (d : InstanceData) (ctx : ContextData) (job : RenderJob)
    (instances : List PubInstance) :
    (processAfterJob cfg o d ctx job instances).renderJobUsed = some job := by
  unfold processAfterJob
  split
  · rfl
  · split <;> rfl

/-- Nothing survives the `SecondaryPool` pop under that key. -/
theorem popSecondaryPool_no_key (info : List (String × Val)) :
    ∀ kv ∈ popSecondaryPool info, kv.1 ≠ "SecondaryPool" := by
  intro kv hkv
  have h := List.mem_filter.mp hkv
  simpa using h.2

/-! ## Claims -/

/-- C4: the override version handed to the folder resolver by
`_submit_deadline_post_job` (lines 179-182, the `version` argument of
`_get_publish_folder`) is `None` exactly when the instance carries the
default version value 1, and is exactly the instance value for any other
explicit version. -/
theorem c4_override_version (v : Int) :
    (overrideVersion (some v) = none ↔ v = 1) ∧
    (v ≠ 1 → overrideVersion (some v) = some v) := by
  unfold overrideVersion
  constructor
  · constructor
    · intro h
      by_contra hv
      simp [hv] at h
    · intro h
      simp [h]
  · intro h
    simp [h]

/-- Witness for C4: version 3 is not the default, so exactly 3 is passed. -/
theorem c4_override_version_witness :
    overrideVersion (some 3) = some 3 :=
  (c4_override_version 3).2 (by decide)

/-- C5: whenever more than one distinct file-sequence pattern is detected
among the input (more than one assembled collection), `get_resource_files`
fails with the `Multiple collections found` assertion (line 40) instead of
returning any sequence. -/
theorem c5_multiple_patterns_fail (resources : List String)
    (fr : Option (List Nat)) (h : 1 < (assemble resources).1.length) :
    get_resource_files resources fr =
      Except.error "Multiple collections found" := by
  unfold get_resource_files
  cases hc : (assemble resources).1 with
  | nil => rfl
  | cons c rest =>
    cases rest with
    | nil =>
      rw [hc] at h
      simp at h
    | cons c2 rest2 => rfl

/-- Witness for C5: two distinct sequence patterns (`foo.*` and `bar.*`)
in one call fail. -/
theorem c5_multiple_patterns_fail_witness :
    get_resource_files
      ["foo.0001.exr", "foo.0002.exr", "bar.0001.exr", "bar.0002.exr"]
      none = Except.error "Multiple collections found" :=
  c5_multiple_patterns_fail _ none (by decide)

/-- C7: when `_get_publish_folder` is called without an explicit version and
a folder entity is present (lines 531-551), the tracking service is queried;
a found last version yields last+1, otherwise the versioning-policy start
version is used and no tracking-service answer contributes to it. -/
theorem c7_auto_version (fe : String) (lastV : Option Int) (startV : Int) :
    (resolveVersion none (some fe) lastV startV).2 = true ∧
    (∀ lv, lastV = some lv →
      (resolveVersion none (some fe) lastV startV).1 = lv + 1) ∧
    (lastV = none →
      (resolveVersion none (some fe) lastV startV).1 = startV) := by
  unfold resolveVersion pyTruthyInt
  cases lastV <;> simp

/-- Witness for C7: last version 4 yields 5; no last version yields the
start version. -/
theorem c7_auto_version_witness :
    (resolveVersion none (some "folder1") (some 4) 1).1 = 5 ∧
    (resolveVersion none (some "folder1") none 1).1 = 1 ∧
    (resolveVersion none (some "folder1") (some 4) 1).2 = true := by
  refine ⟨?_, (c7_auto_version "folder1" none 1).2.2 rfl,
    (c7_auto_version "folder1" (some 4) 1).1⟩
  have h := (c7_auto_version "folder1" (some 4) 1).2.1 4 rfl
  simpa using h

/-- C6: on a file list assembling to exactly one collection whose index set
is the contiguous frame block `range' a n`, `get_resource_files` returns the
full ordered member list when no `frame_range` is given; with a
`frame_range` it returns exactly the members whose frame is not listed in
the range, in frame order (the listed frames are excluded, lines 44-50). -/
theorem c6_single_sequence (resources : List String) (c : FileCollection)
    (a n : Nat) (fr : List Nat)
    (h1 : (assemble resources).1 = [c])
    (h2 : c.indexes = List.range' a n) :
    get_resource_files resources none =
      Except.ok ((List.range' a n).map (formatItem c)) ∧
    get_resource_files resources (some fr) =
      Except.ok
        (((List.range' a n).filter (fun i => decide (i ∉ fr))).map
          (formatItem c)) := by
  unfold get_resource_files
  rw [h1]
  constructor
  · show Except.ok (c.indexes.map (formatItem c)) = _
    rw [h2]
  · have hnd : c.indexes.Nodup := by
      rw [h2]
      exact List.nodup_range' a n
    show Except.ok
      ((fr.foldl (fun (acc : List Nat) f => acc.erase f) c.indexes).map
        (formatItem c)) = _
    rw [foldl_erase_eq_filter fr c.indexes hnd, h2]

/-- Witness for C6: the three-frame sequence `render.0001-0003.exr` with
frame 2 excluded returns frames 1 and 3 in order. -/
theorem c6_single_sequence_witness :
    get_resource_files
      ["render.0001.exr", "render.0002.exr", "render.0003.exr"]
      (some [2]) =
      Except.ok ["render.0001.exr", "render.0003.exr"] := by
  have h :=
    (c6_single_sequence
      ["render.0001.exr", "render.0002.exr", "render.0003.exr"]
      ⟨"render", 4, "exr", [1, 2, 3]⟩ 1 3 [2] (by decide) (by decide)).2
  rw [h]
  rfl

/-- C8: a secondary-pool value (plugin override when set, else the
per-instance value, lines 237-239) is placed in the `JobInfo` payload
(line 255) but popped unconditionally before the payload is sent (line 298),
so the final submitted `JobInfo` never carries a `SecondaryPool` key — for
any successfully built submission. -/
theorem c8_secondary_pool_removed (cfg : Config) (d : InstanceData)
    (ctx : ContextData) (job : RenderJob) (outputDir : String)
    (deps : List (String × Val)) (environment : List (String × String)) :
    ("SecondaryPool",
      valOfOptStr (pyOrStr cfg.deadline_pool_secondary d.secondaryPool))
      ∈ jobInfoPre cfg d ctx job outputDir deps environment ∧
    (∀ kv ∈ popSecondaryPool
        (jobInfoPre cfg d ctx job outputDir deps environment),
      kv.1 ≠ "SecondaryPool") ∧
    (∀ (env : String → Option String) (inTests : Bool)
      (lastV : Option Int) (startV : Int) (fmtDir : Int → String)
      (rmp : String) (instances : List PubInstance) (sub : Submission),
      buildSubmission cfg d ctx env inTests lastV startV fmtDir rmp job
        instances = Except.ok sub →
      ∀ kv ∈ sub.jobInfo, kv.1 ≠ "SecondaryPool") := by
  refine ⟨?_, popSecondaryPool_no_key _, ?_⟩
  · simp [jobInfoPre]
  · intro env inTests lastV startV fmtDir rmp instances sub h
    cases instances with
    | nil => simp [buildSubmission] at h
    | cons i0 rest =>
      simp only [buildSubmission] at h
      cases henv1 : env "AYON_DEFAULT_SETTINGS_VARIANT" with
      | none => rw [henv1] at h; simp at h
      | some sv =>
        rw [henv1] at h
        cases henv2 : env "AYON_BUNDLE_NAME" with
        | none => rw [henv2] at h; simp at h
        | some bn =>
          rw [henv2] at h
          cases hdep : depEntries d job with
          | error e => rw [hdep] at h; simp at h
          | ok deps2 =>
            rw [hdep] at h
            simp only [Except.ok.injEq] at h
            rw [← h]
            exact popSecondaryPool_no_key _

/-- Witness for C8: with the plugin secondary-pool override set to `rtx`,
the pre-pop payload carries the `SecondaryPool` entry, and a sample entry of
the popped payload does not use that key. -/
theorem c8_secondary_pool_removed_witness :
    ("SecondaryPool", Val.str "rtx")
      ∈ jobInfoPre { deadline_pool_secondary := "rtx" }
        { farm := true, productName := "renderMain", version := none,
          priority := none, primaryPool := none, secondaryPool := none,
          tileRendering := none, assemblySubmissionJobs := none,
          bakingSubmissionJobs := none, jobBatchName := none,
          deadlineSubmissionJob := none, deadlineUrl := "http://dl",
          expectedFilesAreAov := false, attachTo := false,
          publishJobState := none, folderEntity := none }
        { projectName := "proj", folderPath := "/assets/shot01",
          task := "comp", user := "artist",
          currentFile := "/work/scene_v001.ma", deadlineUser := none,
          comment := none, intent := none, version := 7,
          audioFile := none }
        ⟨some "batch", "artist", some "job1"⟩ "out" [] [] := by
  have h := (c8_secondary_pool_removed { deadline_pool_secondary := "rtx" }
    { farm := true, productName := "renderMain", version := none,
      priority := none, primaryPool := none, secondaryPool := none,
      tileRendering := none, assemblySubmissionJobs := none,
      bakingSubmissionJobs := none, jobBatchName := none,
      deadlineSubmissionJob := none, deadlineUrl := "http://dl",
      expectedFilesAreAov := false, attachTo := false,
      publishJobState := none, folderEntity := none }
    { projectName := "proj", folderPath := "/assets/shot01",
      task := "comp", user := "artist",
      currentFile := "/work/scene_v001.ma", deadlineUser := none,
      comment := none, intent := none, version := 7, audioFile := none }
    ⟨some "batch", "artist", some "job1"⟩ "out" [] []).1
  exact h

/-- C9: in the written metadata dictionary, `deadline_publish_job_id` is
present exactly when the farm returned a truthy job id (line 485), `audio`
exactly when the context names a truthy audio file that exists on disk
(lines 489-491), and every other listed key is always present
(lines 471-483). -/
theorem c9_metadata_keys (skel : Skeleton) (ctx : ContextData)
    (job : RenderJob) (instances : List PubInstance) (jobId : String)
    (fileExists : String → Bool) :
    (("deadline_publish_job_id" ∈
        (buildPublishJob skel ctx job instances jobId fileExists).map
          Prod.fst) ↔ jobId ≠ "") ∧
    (("audio" ∈
        (buildPublishJob skel ctx job instances jobId fileExists).map
          Prod.fst) ↔
      ∃ a2, ctx.audioFile = some a2 ∧ a2 ≠ "" ∧ fileExists a2 = true) ∧
    (∀ k ∈ (["folderPath", "frameStart", "frameEnd", "fps", "source",
        "user", "version", "intent", "comment", "job", "instances"] :
        List String),
      k ∈ (buildPublishJob skel ctx job instances jobId fileExists).map
        Prod.fst) := by
  unfold buildPublishJob
  refine ⟨?_, ?_, ?_⟩
  · by_cases hid : jobId = "" <;>
      cases hau : ctx.audioFile <;>
      simp [hid, hau]
  · by_cases hid : jobId = "" <;>
      cases hau : ctx.audioFile with
      | none => simp [hid, hau]
      | some a2 =>
        by_cases ha : a2 = "" <;> by_cases hf : fileExists a2 <;>
          simp [hid, hau, ha, hf]
  · intro k hk
    fin_cases hk <;> simp

/-- Witness for C9: with a returned job id and no audio file, the metadata
keys include `fps` and `deadline_publish_job_id`, and exclude `audio`. -/
theorem c9_metadata_keys_witness :
    ("fps" ∈ (buildPublishJob
      ⟨"/assets/shot01", 1001, 1003, Val.int 25, "/work/scene_v001.ma",
        "renderMain", "render"⟩
      { projectName := "proj", folderPath := "/assets/shot01",
        task := "comp", user := "artist",
        currentFile := "/work/scene_v001.ma", deadlineUser := none,
        comment := none, intent := none, version := 7, audioFile := none }
      ⟨some "batch", "artist", some "job1"⟩ [] "pubjob1"
      (fun _ => false)).map Prod.fst) ∧
    ("deadline_publish_job_id" ∈ (buildPublishJob
      ⟨"/assets/shot01", 1001, 1003, Val.int 25, "/work/scene_v001.ma",
        "renderMain", "render"⟩
      { projectName := "proj", folderPath := "/assets/shot01",
        task := "comp", user := "artist",
        currentFile := "/work/scene_v001.ma", deadlineUser := none,
        comment := none, intent := none, version := 7, audioFile := none }
      ⟨some "batch", "artist", some "job1"⟩ [] "pubjob1"
      (fun _ => false)).map Prod.fst) := by
  have h := c9_metadata_keys
    ⟨"/assets/shot01", 1001, 1003, Val.int 25, "/work/scene_v001.ma",
      "renderMain", "render"⟩
    { projectName := "proj", folderPath := "/assets/shot01",
      task := "comp", user := "artist",
      currentFile := "/work/scene_v001.ma", deadlineUser := none,
      comment := none, intent := none, version := 7, audioFile := none }
    ⟨some "batch", "artist", some "job1"⟩ [] "pubjob1" (fun _ => false)
  exact ⟨h.2.2 "fps" (by decide), h.1.mpr (by decide)⟩

/-- Instance data for the C1 counterexample: assembly sub-job ids are
present but `tileRendering` is not truthy, and the original job also carries
an id. -/
def c1ExData : InstanceData :=
  { farm := true, productName := "renderMain", version := none,
    priority := none, primaryPool := none, secondaryPool := none,
    tileRendering := none, assemblySubmissionJobs := some ["a1"],
    bakingSubmissionJobs := none, jobBatchName := none,
    deadlineSubmissionJob := none, deadlineUrl := "http://dl",
    expectedFilesAreAov := false, attachTo := false,
    publishJobState := none, folderEntity := none }

/-- Render job for the C1 counterexample. -/
def c1ExJob : RenderJob :=
  { batch := some "batch", user := "artist", id := some "job1" }

/-- Counterexample to C1 as stated: tile-assembly sub-job ids exist on the
instance (`assemblySubmissionJobs = ["a1"]`), yet because the
`tileRendering` flag is not truthy (line 269 guards on the flag, not on the
ids), the produced dependency entry is the original job id, not one entry
per assembly id. -/
theorem c1_counterexample :
    c1ExData.assemblySubmissionJobs = some ["a1"] ∧
    depEntries c1ExData c1ExJob =
      Except.ok [("JobDependency0", Val.str "job1")] ∧
    depEntries c1ExData c1ExJob ≠ Except.ok (mkDeps ["a1"]) := by
  refine ⟨rfl, rfl, fun hc => ?_⟩
  rw [show depEntries c1ExData c1ExJob =
    Except.ok [("JobDependency0", Val.str "job1")] from rfl] at hc
  simp [mkDeps] at hc

/-- C1 (amended): the `JobDependencyN` entries come from exactly one of the
three sources in priority order, but the first branch is selected by the
truthiness of the `tileRendering` flag (line 269) rather than by the
existence of assembly ids: when `tileRendering` is truthy the entries are
one per assembly id; otherwise when baking ids exist, one per baking id;
otherwise the truthy original job id is the sole entry (no entry when it is
absent or empty).  Entries from two sources never mix. -/
theorem c1_dependency_single_source (d : InstanceData) (job : RenderJob)
    (es : List (String × Val)) (h : depEntries d job = Except.ok es) :
    (d.tileRendering = some true ∧
      ∃ ids, d.assemblySubmissionJobs = some ids ∧ es = mkDeps ids) ∨
    (d.tileRendering ≠ some true ∧
      ∃ ids, d.bakingSubmissionJobs = some ids ∧ ids ≠ [] ∧
        es = mkDeps ids) ∨
    (d.tileRendering ≠ some true ∧ d.bakingSubmissionJobs.getD [] = [] ∧
      ((∃ jid, job.id = some jid ∧ jid ≠ "" ∧
          es = [("JobDependency0", Val.str jid)]) ∨
        (es = [] ∧ (job.id = none ∨ job.id = some "")))) := by
  unfold depEntries at h
  have htile : d.tileRendering.getD false = true ↔
      d.tileRendering = some true := by
    cases d.tileRendering with
    | none => simp
    | some b => cases b <;> simp
  by_cases ht : d.tileRendering.getD false
  · rw [if_pos ht] at h
    left
    refine ⟨htile.mp ht, ?_⟩
    cases ha : d.assemblySubmissionJobs with
    | none => rw [ha] at h; simp at h
    | some ids =>
      rw [ha] at h
      simp only [Except.ok.injEq] at h
      exact ⟨ids, rfl, h.symm⟩
  · rw [if_neg ht] at h
    have ht2 : d.tileRendering ≠ some true := fun hcontra => by
      rw [hcontra] at ht
      simp at ht
    by_cases hb : d.bakingSubmissionJobs.getD [] ≠ []
    · rw [if_pos hb] at h
      right; left
      refine ⟨ht2, ?_⟩
      cases hbk : d.bakingSubmissionJobs with
      | none => rw [hbk] at hb; simp at hb
      | some ids =>
        rw [hbk] at h hb
        simp only [Except.ok.injEq] at h
        exact ⟨ids, rfl, by simpa using hb, h.symm⟩
    · rw [if_neg hb] at h
      right; right
      refine ⟨ht2, by simpa using hb, ?_⟩
      cases hid : job.id with
      | none =>
        rw [hid] at h
        simp only [Except.ok.injEq] at h
        exact Or.inr ⟨h.symm, Or.inl rfl⟩
      | some jid =>
        rw [hid] at h
        have h2 : (if jid ≠ "" then
            Except.ok [("JobDependency0", Val.str jid)]
          else Except.ok ([] : List (String × Val))) = Except.ok es := h
        by_cases hjid : jid = ""
        · rw [if_neg (by simp [hjid])] at h2
          simp only [Except.ok.injEq] at h2
          exact Or.inr ⟨h2.symm, Or.inr (by rw [hjid])⟩
        · rw [if_pos (by simpa using hjid)] at h2
          simp only [Except.ok.injEq] at h2
          exact Or.inl ⟨jid, rfl, hjid, h2.symm⟩

/-- Tile-rendering variant of the C1 example data, for the amended-claim
witness. -/
def c1TileData : InstanceData :=
  { c1ExData with
    tileRendering := some true
    assemblySubmissionJobs := some ["a1", "a2"] }

/-- Witness for the amended C1: a tile-rendering instance with two assembly
sub-job ids yields exactly the two assembly dependency entries. -/
theorem c1_dependency_single_source_witness :
    (c1TileData.tileRendering = some true ∧
      ∃ ids, c1TileData.assemblySubmissionJobs = some ids ∧
        mkDeps ["a1", "a2"] = mkDeps ids) ∨
    (c1TileData.tileRendering ≠ some true ∧
      ∃ ids, c1TileData.bakingSubmissionJobs = some ids ∧ ids ≠ [] ∧
        mkDeps ["a1", "a2"] = mkDeps ids) ∨
    (c1TileData.tileRendering ≠ some true ∧
      c1TileData.bakingSubmissionJobs.getD [] = [] ∧
      ((∃ jid, c1ExJob.id = some jid ∧ jid ≠ "" ∧
          mkDeps ["a1", "a2"] = [("JobDependency0", Val.str jid)]) ∨
        (mkDeps ["a1", "a2"] = [] ∧
          (c1ExJob.id = none ∨ c1ExJob.id = some "")))) :=
  c1_dependency_single_source c1TileData c1ExJob (mkDeps ["a1", "a2"])
    (by rfl)

/-- C3 (amended): when the instance carries no `deadlineSubmissionJob`, the
fatal assertion (lines 428-430) fires exactly when `tileRendering` is the
literal `False`; for every other `tileRendering` value (including an absent
key) a synthetic minimal render-job record is fabricated (lines 431-457) and
processing continues with it: its user is the context `deadlineUser` with
the OS user as default, it has no job id, and its batch name is the job
batch name when assembly sub-jobs exist, else the current file name without
directory and extension. -/
theorem c3_missing_submission (cfg : Config) (o : Oracles)
    (d : InstanceData) (ctx : ContextData)
    (hfarm : d.farm = true) (hjob : d.deadlineSubmissionJob = none) :
    (d.tileRendering = some false →
      process cfg o d ctx =
        ⟨Except.error "Cannot continue without valid Deadline submission.",
          true, false, false, false,
          { d with deadlineSubmissionJob := none }, none, none⟩) ∧
    (d.tileRendering ≠ some false →
      (process cfg o d ctx).renderJobUsed =
        some (fakeRenderJob { d with deadlineSubmissionJob := none } ctx
          o.osUser)) ∧
    (fakeRenderJob { d with deadlineSubmissionJob := none } ctx
      o.osUser).user = ctx.deadlineUser.getD o.osUser ∧
    (fakeRenderJob { d with deadlineSubmissionJob := none } ctx
      o.osUser).id = none ∧
    (d.assemblySubmissionJobs.getD [] = [] →
      (fakeRenderJob { d with deadlineSubmissionJob := none } ctx
        o.osUser).batch =
        some (splitextBase (basename ctx.currentFile))) ∧
    (d.assemblySubmissionJobs.getD [] ≠ [] →
      (fakeRenderJob { d with deadlineSubmissionJob := none } ctx
        o.osUser).batch = d.jobBatchName) := by
  refine ⟨?_, ?_, by simp [fakeRenderJob], rfl, ?_, ?_⟩
  · intro h
    simp [process, hfarm, hjob, h]
  · intro h
    have hp : process cfg o d ctx =
        processAfterJob cfg o { d with deadlineSubmissionJob := none } ctx
          (fakeRenderJob { d with deadlineSubmissionJob := none } ctx
            o.osUser)
          (synthesizedInstances o d) := by
      simp [process, hfarm, hjob, h]
    rw [hp, processAfterJob_renderJobUsed]
  · intro h
    simp [fakeRenderJob, h]
  · intro h
    simp [fakeRenderJob, h]

/-- Instance data for the C3 counterexample and witness: no
`deadlineSubmissionJob` and no `tileRendering` key at all. -/
def c3ExData : InstanceData :=
  { farm := true, productName := "renderMain", version := none,
    priority := none, primaryPool := none, secondaryPool := none,
    tileRendering := none, assemblySubmissionJobs := none,
    bakingSubmissionJobs := none, jobBatchName := none,
    deadlineSubmissionJob := none, deadlineUrl := "http://dl:8081",
    expectedFilesAreAov := false, attachTo := false,
    publishJobState := none, folderEntity := none }

/-- Context data for the C3 counterexample and witness. -/
def c3ExCtx : ContextData :=
  { projectName := "proj", folderPath := "/assets/shot01", task := "comp",
    user := "artist", currentFile := "/work/scene_v001.ma",
    deadlineUser := none, comment := none, intent := none, version := 7,
    audioFile := none }

/-- Oracles for the C3 counterexample and witness: a successful farm
response and a well-formed environment. -/
def c3ExOracles : Oracles :=
  { osUser := "osuser",
    env := fun k =>
      if k = "AYON_DEFAULT_SETTINGS_VARIANT" then some "production"
      else if k = "AYON_BUNDLE_NAME" then some "bundle1"
      else none,
    inTests := false, fileExists := fun _ => false,
    lastVersion := none, startVersion := 1,
    formatDir := fun v => "/proj/publish/v" ++ toString v,
    rootlessMetadataPath := "root/work/metadata.json",
    skeleton := ⟨"/assets/shot01", 1001, 1003, Val.int 25,
      "/work/scene_v001.ma", "renderMain", "render"⟩,
    aovInstances := [], attachedInstances := [],
    response := ⟨true, "", "pubjob1"⟩ }

/-- Plugin configuration with all defaults, for the concrete examples. -/
def defaultCfg : Config := {}

/-- Counterexample to C3 as stated: the instance carries no farm submission
reference and also no tile-rendering value at all (no fallback flag), yet
`process` does not abort with the fatal assertion — because the assertion
(line 428) only fires when `tileRendering` is the literal `False`, it
fabricates the synthetic record and completes successfully. -/
theorem c3_counterexample :
    c3ExData.deadlineSubmissionJob = none ∧
    c3ExData.tileRendering = none ∧
    (process defaultCfg c3ExOracles c3ExData c3ExCtx).outcome =
      Except.ok () ∧
    (process defaultCfg c3ExOracles c3ExData c3ExCtx).metadataWritten =
      true ∧
    (process defaultCfg c3ExOracles c3ExData c3ExCtx).renderJobUsed =
      some ⟨some "scene_v001", "osuser", none⟩ :=
  ⟨rfl, rfl, rfl, rfl, rfl⟩

/-- Witness for the amended C3, explicit-`False` side: with `tileRendering`
set to the literal `False` and no submission job, `process` aborts with the
assertion. -/
theorem c3_missing_submission_witness :
    process defaultCfg c3ExOracles
      { c3ExData with tileRendering := some false } c3ExCtx =
      ⟨Except.error "Cannot continue without valid Deadline submission.",
        true, false, false, false,
        { c3ExData with tileRendering := some false }, none, none⟩ :=
  (c3_missing_submission defaultCfg c3ExOracles
    { c3ExData with tileRendering := some false } c3ExCtx rfl rfl).1 rfl

/-- C2: a non-success farm HTTP response makes the submission raise
`Exception(response.text)` (lines 307-308) — the failure message is exactly
the response body, hence contains it — and `process` aborts before the
metadata write (line 496 is only reached on success): nothing is written. -/
theorem c2_http_failure_aborts (cfg : Config) (o : Oracles)
    (d : InstanceData) (ctx : ContextData) (rj : RenderJob)
    (hfarm : d.farm = true)
    (hjob : d.deadlineSubmissionJob = some rj)
    (hurl : d.deadlineUrl ≠ "")
    (hbuild : ∃ sub, buildSubmission cfg
      { d with deadlineSubmissionJob := none } ctx o.env o.inTests
      o.lastVersion o.startVersion o.formatDir o.rootlessMetadataPath rj
      (synthesizedInstances o d) = Except.ok sub)
    (hresp : o.response.ok = false) :
    (process cfg o d ctx).outcome = Except.error o.response.text ∧
    (process cfg o d ctx).posted = true ∧
    (process cfg o d ctx).metadataWritten = false ∧
    (process cfg o d ctx).publishJob = none := by
  obtain ⟨sub, hb⟩ := hbuild
  have hp : process cfg o d ctx =
      processAfterJob cfg o { d with deadlineSubmissionJob := none } ctx rj
        (synthesizedInstances o d) := by
    simp [process, hfarm, hjob]
  have hs : submitPostJob cfg { d with deadlineSubmissionJob := none } ctx
      o.env o.inTests o.lastVersion o.startVersion o.formatDir
      o.rootlessMetadataPath o.response rj (synthesizedInstances o d) =
      (true, Except.error o.response.text) := by
    unfold submitPostJob
    rw [hb, hresp]
    simp
  rw [hp]
  unfold processAfterJob
  rw [if_neg hurl, hs]
  exact ⟨rfl, rfl, rfl, rfl⟩

/-- Instance data for the C2 witness: a prior deadline submission exists. -/
def c2ExData : InstanceData :=
  { c3ExData with
    deadlineSubmissionJob := some ⟨some "batch", "artist", some "job1"⟩ }

/-- Oracles for the C2 witness: the farm answers HTTP 500 with body
`internal error`. -/
def c2ExOracles : Oracles :=
  { c3ExOracles with response := ⟨false, "internal error", ""⟩ }

/-- Witness for C2: on the HTTP 500 response with body `internal error`,
the outcome is exactly that failure text and no metadata is written. -/
theorem c2_http_failure_aborts_witness :
    (process defaultCfg c2ExOracles c2ExData c3ExCtx).outcome =
      Except.error "internal error" ∧
    (process defaultCfg c2ExOracles c2ExData c3ExCtx).metadataWritten =
      false := by
  have h := c2_http_failure_aborts defaultCfg c2ExOracles c2ExData c3ExCtx
    ⟨some "batch", "artist", some "job1"⟩ rfl rfl (by decide)
    ⟨_, rfl⟩ rfl
  exact ⟨h.1, h.2.2.1⟩

/-- C10: an instance whose data carries no truthy `farm` flag is skipped
immediately (lines 326-328): no skeleton is built, no folder resolved, no
job posted, no metadata written, and the instance data is unchanged. -/
theorem c10_non_farm_skip (cfg : Config) (o : Oracles) (d : InstanceData)
    (ctx : ContextData) (h : d.farm = false) :
    process cfg o d ctx =
      ⟨Except.ok (), false, false, false, false, d, none, none⟩ := by
  simp [process, h]

/-- Witness for C10 on a concrete non-farm instance. -/
theorem c10_non_farm_skip_witness :
    process defaultCfg c3ExOracles { c3ExData with farm := false }
      c3ExCtx =
      ⟨Except.ok (), false, false, false, false,
        { c3ExData with farm := false }, none, none⟩ :=
  c10_non_farm_skip defaultCfg c3ExOracles { c3ExData with farm := false }
    c3ExCtx rfl

end SubmitPublishJob
